import Mathlib

/-!
Verification of the BotCamp Medical question ingestion and moderation
pipeline.  The definitions below are a shallow embedding of the Python
sources: `services/multi_admin_service.py` (batch store and locking
protocol), `services/ai_question_parser.py` (candidate validation),
`services/moderation.py` (heuristic moderation fallback),
`handlers/admin.py` (question insertion, correct-option mapping and the
incremental contributor statistics update) and
`handlers/moderation_handlers.py` together with
`services/analytics_service.py` (post-upload moderation and contributor
counters).  Timestamps are modelled as integer seconds, SQL rows as Lean
structures, and Python truthiness is made explicit wherever the code
relies on it.
-/

namespace BotCamp

/-- Python `a or b` on two optional strings followed by f-string
rendering of the result: a `None`/empty first component falls through to
the second, and a `None` second component renders as `"None"`. -/
def pyOrRenderStr (a b : Option String) : String :=
  match a with
  | some s => if s = "" then (match b with | some t => t | none => "None") else s
  | none => match b with | some t => t | none => "None"

/-- Python `(a or b or "")` on two optional strings: first truthy
(non-`None`, non-empty) value, defaulting to `""`. -/
def pyOrStr2 (a b : Option String) : String :=
  match a with
  | some s => if s = "" then (match b with | some t => t | none => "") else s
  | none => match b with | some t => t | none => ""

/-- Python truthiness of an optional integer column: `None` and `0` are
falsy. -/
def intTruthy : Option Int → Bool
  | none => false
  | some v => v != 0

/-- Python 3 `round(a / b)` for integers `a` and positive `b`: the
nearest integer to the exact quotient, ties to even. -/
def pyRound (a b : Int) : Int :=
  let f := Int.fdiv a b
  let r := a - f * b
  if 2 * r < b then f
  else if b < 2 * r then f + 1
  else if f % 2 = 0 then f else f + 1

/-- The whitespace test of Python `str.strip()` (restricted to ASCII
whitespace). -/
def pyIsSpace (c : Char) : Bool :=
  c == ' ' || c == '\t' || c == '\n' || c == '\r' || c == '\x0b' || c == '\x0c'

/-- Python `str.strip()`: drop leading and trailing whitespace. -/
def pyStrip (s : String) : String :=
  String.mk (((s.data.dropWhile pyIsSpace).reverse.dropWhile pyIsSpace).reverse)

/-- ASCII upper-casing of one character. -/
def asciiUpper (c : Char) : Char :=
  if c.isLower then Char.ofNat (c.toNat - 32) else c

/-- ASCII lower-casing of one character. -/
def asciiLower (c : Char) : Char :=
  if c.isUpper then Char.ofNat (c.toNat + 32) else c

/-- Python `str.upper()` (restricted to ASCII letters). -/
def pyUpper (s : String) : String := String.mk (s.data.map asciiUpper)

/-- Python `str.lower()` (restricted to ASCII letters). -/
def pyLower (s : String) : String := String.mk (s.data.map asciiLower)

/-- Python `len` of a string, in characters. -/
def pyLen (s : String) : Nat := s.data.length

/-- Python `s.endswith("?")`. -/
def pyEndsWithQm (s : String) : Bool := s.data.getLast? == some '?'

/-! ## Data model (`database/models.py`) -/

/-- Row of `upload_batches` (`database/models.py`, class `UploadBatch`). -/
structure UploadBatch where
  batch_id : Nat
  uploader_id : Int
  status : String
  locked_by : Option Int
  locked_at : Option Int
  questions_count : Int
  created_at : Int
  completed_at : Option Int
  deriving Repr, DecidableEq

/-- Row of `questions` (`database/models.py`, class `Question`), with the
fields read or written by the services under verification. -/
structure QuestionRow where
  question_id : Nat
  uploader_id : Option Int
  created_at : Int
  is_active : Bool
  needs_review : Bool
  moderation_score : Option Int
  moderation_comments : String
  moderated_by_ai : Bool
  deriving Repr, DecidableEq

/-- Row of `users` (`database/models.py`, class `User`), with the naming
and contributor-analytics fields. -/
structure UserRow where
  user_id : Int
  username : Option String
  first_name : Option String
  upload_count : Int
  approved_count : Int
  flagged_count : Int
  rejected_count : Int
  average_moderation_score : Option Int
  deriving Repr, DecidableEq

/-- The relational store as seen by the services: the three tables the
claims are about. -/
structure Store where
  batches : List UploadBatch
  questions : List QuestionRow
  users : List UserRow
  deriving Repr, DecidableEq

/-- Result dictionary `{"success": ..., "message": ...}` returned by the
batch-store operations. -/
structure OpResult where
  success : Bool
  message : String
  deriving Repr, DecidableEq

/-! ## Batch store (`services/multi_admin_service.py`) -/

/-- `session.query(UploadBatch).filter(UploadBatch.batch_id == batch_id).first()`. -/
def findBatch (bs : List UploadBatch) (bid : Nat) : Option UploadBatch :=
  bs.find? (fun b => b.batch_id == bid)

/-- `session.query(User).filter(User.user_id == uid).first()`. -/
def findUser (us : List UserRow) (uid : Int) : Option UserRow :=
  us.find? (fun u => u.user_id == uid)

/-- `self.lock_timeout_minutes * 60`: the 15-minute lock timeout in
seconds. -/
def lockTimeoutSeconds : Int := 15 * 60

/-- `locker.username or locker.first_name if locker else "Unknown"`
(`multi_admin_service.py` line 59): resolve the display name of the
admin holding a lock. -/
def lockerName (users : List UserRow) (uid : Int) : String :=
  match findUser users uid with
  | some u => pyOrRenderStr u.username u.first_name
  | none => "Unknown"

/-- `MultiAdminService.lock_batch_for_review`.  `now` is the value of
`datetime.utcnow()` during the call. -/
def lock_batch_for_review (st : Store) (now : Int) (bid : Nat) (adminId : Int) :
    Store × OpResult :=
  match findBatch st.batches bid with
  | none => (st, ⟨false, "Batch not found"⟩)
  | some b =>
    let held := intTruthy b.locked_by && b.locked_by != some adminId
    let fresh := match b.locked_at with
      | some t => now - t < lockTimeoutSeconds
      | none => false
    if held && fresh then
      (st, ⟨false, "⚠️ This batch is currently being reviewed by @" ++
          lockerName st.users (b.locked_by.getD 0)⟩)
    else
      ({st with batches := st.batches.map fun c =>
          if c.batch_id == bid then
            {c with locked_by := some adminId, locked_at := some now, status := "review"}
          else c},
       ⟨true, "Batch locked for review"⟩)

/-- `MultiAdminService.unlock_batch`. -/
def unlock_batch (st : Store) (bid : Nat) (adminId : Int) : Store × Bool :=
  match findBatch st.batches bid with
  | some b =>
    if b.locked_by == some adminId then
      ({st with batches := st.batches.map fun c =>
          if c.batch_id == bid then
            {c with locked_by := none, locked_at := none, status := "draft"}
          else c},
       true)
    else (st, true)
  | none => (st, true)

/-- `MultiAdminService.create_upload_batch`; the store assigns the fresh
primary key `newId`. -/
def create_upload_batch (st : Store) (now : Int) (uploaderId : Int)
    (questionsCount : Int) (newId : Nat) : Store × Nat :=
  ({st with batches := st.batches ++
      [{ batch_id := newId, uploader_id := uploaderId, status := "draft",
         locked_by := none, locked_at := none, questions_count := questionsCount,
         created_at := now, completed_at := none }]},
   newId)

/-- The question filter used by both `approve_batch` and `reject_batch`:
`Question.uploader_id == batch.uploader_id, Question.created_at >=
batch.created_at` (SQL semantics: a `NULL` uploader matches nothing). -/
def batchQuestionMatch (b : UploadBatch) (q : QuestionRow) : Bool :=
  q.uploader_id == some b.uploader_id && b.created_at ≤ q.created_at

/-- `MultiAdminService.approve_batch`. -/
def approve_batch (st : Store) (now : Int) (bid : Nat) (adminId : Int) :
    Store × OpResult :=
  match findBatch st.batches bid with
  | none => (st, ⟨false, "Batch not found"⟩)
  | some b =>
    if b.locked_by != some adminId then
      (st, ⟨false, "You don\x27t have permission to approve this batch"⟩)
    else
      ({st with
          batches := st.batches.map fun c =>
            if c.batch_id == bid then
              {c with status := "approved", completed_at := some now,
                      locked_by := none, locked_at := none}
            else c,
          questions := st.questions.map fun q =>
            if batchQuestionMatch b q then
              {q with is_active := true, needs_review := false}
            else q},
       ⟨true, "Batch approved. " ++
          toString (st.questions.filter (batchQuestionMatch b)).length ++
          " questions activated."⟩)

/-- `MultiAdminService.reject_batch` (the unused `reason` argument is
omitted). -/
def reject_batch (st : Store) (now : Int) (bid : Nat) (adminId : Int) :
    Store × OpResult :=
  match findBatch st.batches bid with
  | none => (st, ⟨false, "Batch not found"⟩)
  | some b =>
    if b.locked_by != some adminId then
      (st, ⟨false, "You don\x27t have permission to reject this batch"⟩)
    else
      ({st with
          batches := st.batches.map fun c =>
            if c.batch_id == bid then
              {c with status := "rejected", completed_at := some now,
                      locked_by := none, locked_at := none}
            else c,
          questions := st.questions.map fun q =>
            if batchQuestionMatch b q then
              {q with is_active := false, needs_review := false}
            else q},
       ⟨true, "Batch rejected. " ++
          toString (st.questions.filter (batchQuestionMatch b)).length ++
          " questions deactivated."⟩)

/-- The filter of `cleanup_expired_locks`: `UploadBatch.locked_at <
cutoff_time, UploadBatch.status == "review"` with `cutoff_time = now -
15 minutes` (SQL semantics: a `NULL` `locked_at` never compares below
the cutoff). -/
def expiredForCleanup (now : Int) (b : UploadBatch) : Bool :=
  (match b.locked_at with
    | some t => t < now - lockTimeoutSeconds
    | none => false) && b.status == "review"

/-- The per-batch mutation performed by `cleanup_expired_locks`. -/
def clearExpiredLock (b : UploadBatch) : UploadBatch :=
  {b with locked_by := none, locked_at := none, status := "draft"}

/-- `MultiAdminService.cleanup_expired_locks`: force-unlock every
expired reviewing batch and return how many were cleaned. -/
def cleanup_expired_locks (st : Store) (now : Int) : Store × Nat :=
  ({st with batches := st.batches.map fun b =>
      if expiredForCleanup now b then clearExpiredLock b else b},
   (st.batches.filter (expiredForCleanup now)).length)

/-! ## Candidate validation (`services/ai_question_parser.py`) -/

/-- A Python `dict` of option strings, as an insertion sequence; a later
binding of the same key overwrites an earlier one. -/
abbrev StrDict := List (String × String)

/-- `d.get(k, "")`: the value of the last binding of `k`, defaulting to
the empty string. -/
def dictGet (d : StrDict) (k : String) : String :=
  match (List.reverse d).find? (fun p => p.1 == k) with
  | some p => p.2
  | none => ""

/-- `len(d)`: the number of distinct keys. -/
def dictLen (d : StrDict) : Nat :=
  ((d.map Prod.fst).eraseDups).length

/-- A candidate question as decoded from the AI response JSON; `none`
marks an absent key. -/
structure Candidate where
  question_text : Option String
  options : Option StrDict
  correct_answer : Option String
  explanation : Option String
  ai_confidence : Option ℚ
  deriving Repr, DecidableEq

/-- An entry of the validated output list built by
`AIQuestionParser._validate_questions`. -/
structure ValidatedQuestion where
  id : Nat
  question_text : String
  option_a : String
  option_b : String
  option_c : String
  option_d : String
  correct_answer : String
  explanation : String
  ai_confidence : ℚ
  deriving Repr, DecidableEq

/-- The acceptance test of `_validate_questions`, in the order the code
performs its checks: all three required keys present, the options dict
has exactly four entries, the upper-cased correct answer is a letter
`A`–`D`, the stripped question text has at least 10 characters, and all
four of the options `A`–`D` are non-empty after stripping. -/
def validationAccepts (c : Candidate) : Bool :=
  c.question_text.isSome && c.options.isSome && c.correct_answer.isSome &&
  dictLen (c.options.getD []) == 4 &&
  ["A", "B", "C", "D"].contains (pyUpper (c.correct_answer.getD "")) &&
  10 ≤ pyLen (pyStrip (c.question_text.getD "")) &&
  ((["A", "B", "C", "D"].filter
      (fun k => pyStrip (dictGet (c.options.getD []) k) != "")).length == 4)

/-- The cleaned output entry built for an accepted candidate at position
`i` of the input list (`id = i + 1` from `enumerate`). -/
def cleanCandidate (i : Nat) (c : Candidate) : ValidatedQuestion :=
  { id := i + 1,
    question_text := pyStrip (c.question_text.getD ""),
    option_a := pyStrip (dictGet (c.options.getD []) "A"),
    option_b := pyStrip (dictGet (c.options.getD []) "B"),
    option_c := pyStrip (dictGet (c.options.getD []) "C"),
    option_d := pyStrip (dictGet (c.options.getD []) "D"),
    correct_answer := pyUpper (c.correct_answer.getD ""),
    explanation := pyStrip (c.explanation.getD ""),
    ai_confidence := min (max (c.ai_confidence.getD (4/5)) 0) 1 }

/-- The enumerated loop body of `_validate_questions`, from position
`i`. -/
def validateQuestionsFrom (i : Nat) : List Candidate → List ValidatedQuestion
  | [] => []
  | c :: rest =>
    if validationAccepts c then
      cleanCandidate i c :: validateQuestionsFrom (i + 1) rest
    else
      validateQuestionsFrom (i + 1) rest

/-- `AIQuestionParser._validate_questions`. -/
def validate_questions (qs : List Candidate) : List ValidatedQuestion :=
  validateQuestionsFrom 0 qs

/-! ## Heuristic moderation fallback (`services/moderation.py`) -/

/-- The fields of the question dictionary read by the heuristic branch
of `moderate_question_with_ai`. -/
structure ModInput where
  question : Option String
  question_text : Option String
  options : Option (List String)
  deriving Repr, DecidableEq

/-- The moderation result dictionary. -/
structure ModVerdict where
  moderation_score : Int
  moderation_comments : String
  action : String
  deriving Repr, DecidableEq

/-- The heuristic fallback at the end of `moderate_question_with_ai`
(lines 69–81), taken when no AI provider is available. -/
def heuristicModeration (q : ModInput) : ModVerdict :=
  let qtext := pyStrip (pyOrStr2 q.question q.question_text)
  let opts := q.options.getD []
  let score : Int := if pyEndsWithQm qtext && 4 ≤ opts.length then 75 else 50
  { moderation_score := score,
    moderation_comments := "Heuristic moderation applied - no AI available.",
    action := if 70 ≤ score then "accept" else "flag" }

/-! ## Question insertion and contributor stats (`handlers/admin.py`) -/

/-- `_map_correct_option(correct, options)` (`handlers/admin.py` lines
1577–1589).  A match of the answer text at an index beyond `letters`
raises `IndexError`, which the surrounding `except` turns into `"A"`. -/
def map_correct_option (correct : Option String) (options : List String) : String :=
  match correct with
  | none => "A"
  | some c =>
    if c = "" then "A"
    else
      let letters : List String := ["A", "B", "C", "D", "E"]
      let cu := pyUpper (pyStrip c)
      if letters.contains cu then
        match cu.toList with
        | ch :: _ => String.mk [ch]
        | [] => "A"
      else
        match (options.map (fun o => pyLower (pyStrip o))).findIdx?
            (fun o => o == pyLower (pyStrip c)) with
        | some idx => (letters[idx]?).getD "A"
        | none => "A"

/-- The upload dictionary consumed by `_insert_question_with_moderation`. -/
structure UploadCand where
  question : Option String
  options : List String
  correct_answer : Option String
  explanation : Option String
  deriving Repr, DecidableEq

/-- The contributor-counter update inlined in
`_insert_question_with_moderation` (`handlers/admin.py` lines 605–621):
bump `upload_count`, then the bucket selected by the moderation action,
and on the approved path fold the score into the rolling average with
`new_avg = int(round(((prev_avg * prev_n) + mscore) / (prev_n + 1)))`. -/
def contribUpdate (u : UserRow) (action : String) (mscore : Option Int) : UserRow :=
  let u := {u with upload_count := u.upload_count + 1}
  if action == "reject" then
    {u with rejected_count := u.rejected_count + 1}
  else if action == "flag" then
    {u with flagged_count := u.flagged_count + 1}
  else
    let u := {u with approved_count := u.approved_count + 1}
    match mscore with
    | none => u
    | some s =>
      let prevAvg : Int := (u.average_moderation_score).getD 0
      let prevN : Int := if intTruthy (some u.approved_count) && 0 < u.approved_count
        then u.approved_count - 1 else 0
      let newAvg : Int := pyRound (prevAvg * prevN + s) (prevN + 1)
      {u with average_moderation_score := some newAvg}

/-- The fields of the `Question` row as constructed by
`_insert_question_with_moderation` (`handlers/admin.py` lines 628–647). -/
structure AdminQuestion where
  question_text : String
  option_a : String
  option_b : String
  option_c : String
  option_d : String
  correct_answer : String
  explanation : Option String
  is_active : Bool
  moderation_score : Option Int
  moderation_comments : Option String
  moderated_by_ai : Bool
  needs_review : Bool
  deriving Repr, DecidableEq

/-- Python `(q.get("options") or [None,None,None,None])[i] or ""`:
`none` models the `IndexError` raised when a non-empty options list is
shorter than `i + 1` (an empty or missing list falls back to the
four-`None` default, whose entries render as `""`). -/
def optionAt (opts : List String) (i : Nat) : Option String :=
  (if opts.isEmpty then ["", "", "", ""] else opts)[i]?

/-- The `Question` row constructed by `_insert_question_with_moderation`;
`needsReview` is `action == "flag"`.  `none` models the construction
raising `IndexError` on one of the four option accesses. -/
def builtQuestion (q : UploadCand) (needsReview : Bool)
    (mscore : Option Int) (mcomments : Option String) : Option AdminQuestion :=
  match optionAt q.options 0, optionAt q.options 1,
      optionAt q.options 2, optionAt q.options 3 with
  | some a, some b, some c, some d =>
    some { question_text := q.question.getD "",
           option_a := a, option_b := b, option_c := c, option_d := d,
           correct_answer := map_correct_option q.correct_answer q.options,
           explanation := q.explanation,
           is_active := !needsReview,
           moderation_score := mscore,
           moderation_comments := mcomments,
           moderated_by_ai := true,
           needs_review := needsReview }
  | _, _, _, _ => none

/-- The persistence step of `_insert_question_with_moderation`: on a
`reject` action the handler returns before constructing the row; if the
construction raises `IndexError`, the exception propagates to the
caller's `except`, which persists nothing; otherwise the built row is
committed to the table. -/
def insertQuestionWithModeration (rows : List AdminQuestion) (q : UploadCand)
    (action : String) (mscore : Option Int) (mcomments : Option String) :
    List AdminQuestion :=
  if action == "reject" then rows
  else
    match builtQuestion q (action == "flag") mscore mcomments with
    | some row => rows ++ [row]
    | none => rows

/-! ## Post-upload moderation (`handlers/moderation_handlers.py` and
`services/analytics_service.py`) -/

/-- `session.query(Question).filter(Question.question_id == qid).first()`. -/
def findQuestion (qs : List QuestionRow) (qid : Nat) : Option QuestionRow :=
  qs.find? (fun q => q.question_id == qid)

/-- `AnalyticsService.update_contributor_stats` (lines 338–370): bump
the counter bucket named by `action` (`"approved"` / `"flagged"` /
`"rejected"`), then recompute the rolling average moderation score from
every question of the uploader that carries a score. -/
def update_contributor_stats (st : Store) (userId : Int) (questionId : Nat)
    (action : String) : Store :=
  match findUser st.users userId with
  | none => st
  | some _ =>
    let bump (u : UserRow) : UserRow :=
      if action == "approved" then {u with approved_count := u.approved_count + 1}
      else if action == "flagged" then {u with flagged_count := u.flagged_count + 1}
      else if action == "rejected" then {u with rejected_count := u.rejected_count + 1}
      else u
    let scoreTruthy : Bool := match findQuestion st.questions questionId with
      | some q => (match q.moderation_score with | some s => s != 0 | none => false)
      | none => false
    let scored := st.questions.filter
      (fun q => q.uploader_id == some userId && q.moderation_score.isSome)
    let avg (u : UserRow) : UserRow :=
      if scoreTruthy && !scored.isEmpty then
        {u with average_moderation_score := some (pyRound
          (scored.map (fun q => q.moderation_score.getD 0)).sum scored.length)}
      else u
    {st with users := st.users.map fun u =>
      if u.user_id == userId then avg (bump u) else u}

/-- The moderation-result dictionary received from the scorer. -/
structure ScorerResult where
  moderation_score : Option Int
  moderation_comments : Option String
  action : Option String
  deriving Repr, DecidableEq

/-- `ModerationHandlers.moderate_question_after_upload` (lines 196–235):
record the scorer verdict on the question row, apply the action
(`flag` → needs review, `reject` → deactivate, otherwise clear the
review flag), then update the uploader's contributor stats with the
scorer's action string. -/
def moderate_question_after_upload (st : Store) (questionId : Nat)
    (mr : ScorerResult) : Store :=
  match findQuestion st.questions questionId with
  | none => st
  | some q0 =>
    let action := mr.action.getD "flag"
    let updQ (q : QuestionRow) : QuestionRow :=
      if q.question_id == questionId then
        let q := {q with moderation_score := some (mr.moderation_score.getD 0),
                         moderation_comments := mr.moderation_comments.getD "",
                         moderated_by_ai := true}
        if action == "flag" then {q with needs_review := true}
        else if action == "reject" then {q with is_active := false, needs_review := false}
        else {q with needs_review := false}
      else q
    let st1 := {st with questions := st.questions.map updQ}
    match q0.uploader_id with
    | some uid =>
      if uid != 0 then update_contributor_stats st1 uid questionId action else st1
    | none => st1

/-! ## Specification-side predicates

These restate claims of the specification in the specification's own
vocabulary, to be compared against the embedded code. -/

/-- The validation rule exactly as the specification words it: non-empty
question text, exactly four non-empty options, and a correct answer
resolvable to one of `A`–`D` either by letter or by exact
case-insensitive text match against the options. -/
def specClaimValid (c : Candidate) : Bool :=
  let d := c.options.getD []
  let ca := c.correct_answer.getD ""
  (c.question_text.getD "") != "" &&
  dictLen d == 4 &&
  (["A", "B", "C", "D"].filter (fun k => pyStrip (dictGet d k) != "")).length == 4 &&
  (["A", "B", "C", "D"].contains (pyUpper ca) ||
    ["A", "B", "C", "D"].any (fun k => pyLower (dictGet d k) == pyLower ca))

/-- The amended validation rule: every required key present, a stripped
question text of at least 10 characters, an options dict with exactly
four entries all of whose `A`–`D` values are non-empty after stripping,
and a correct answer that upper-cases to a bare letter `A`–`D` (text
answers are not resolved at this stage). -/
def AmendedValid (c : Candidate) : Prop :=
  c.question_text.isSome = true ∧
  c.options.isSome = true ∧
  c.correct_answer.isSome = true ∧
  10 ≤ pyLen (pyStrip (c.question_text.getD "")) ∧
  dictLen (c.options.getD []) = 4 ∧
  (∀ k ∈ (["A", "B", "C", "D"] : List String),
      pyStrip (dictGet (c.options.getD []) k) ≠ "") ∧
  pyUpper (c.correct_answer.getD "") ∈ (["A", "B", "C", "D"] : List String)

/-- The specification's rolling-average recurrence `new_avg =
round((prev_avg * prev_n + new_value) / (prev_n + 1))`, iterated from an
empty bucket over a list of recorded scores; `none` when no score has
been recorded. -/
def rollingFormulaFold (scores : List Int) : Option Int :=
  go 0 0 scores
where
  /-- One bucket state: current average and current count. -/
  go (avg : Int) (n : Nat) : List Int → Option Int
    | [] => if n = 0 then none else some avg
    | s :: rest =>
      go (pyRound (avg * n + s) (n + 1)) (n + 1) rest

/-- Folding the admin-handler contributor update over a list of accepted
moderation scores, as `N` approve commits for the same uploader. -/
def foldAccepts (u : UserRow) (scores : List Int) : UserRow :=
  scores.foldl (fun u s => contribUpdate u "accept" (some s)) u

/-- An uploader with all contributor counters at zero and no recorded
average. -/
def zeroStatsUser (uid : Int) : UserRow :=
  { user_id := uid, username := none, first_name := none, upload_count := 0,
    approved_count := 0, flagged_count := 0, rejected_count := 0,
    average_moderation_score := none }

/-- The expiry-sweep condition as amended: a reviewing batch whose lock
age strictly exceeds the 15-minute timeout (so a lock aged exactly the
timeout is not yet swept, and a `review` batch without a timestamp is
never swept). -/
def SpecSweepExpired (now : Int) (b : UploadBatch) : Prop :=
  b.status = "review" ∧ ∃ t, b.locked_at = some t ∧ lockTimeoutSeconds < now - t

/-- The batch-store invariant of the specification: a held lock implies
`review` status. -/
def LockInv (st : Store) : Prop :=
  ∀ b ∈ st.batches, b.locked_by ≠ none → b.status = "review"

/-! ## Concrete stores used to evaluate the operations -/

/-- A store with two single-question batches of the same uploader: batch
1 (created at 0) under review by admin 5, and batch 2 (created at 100)
still in draft, each with its own question row created alongside it. -/
def storeA : Store := {
  batches := [
    { batch_id := 1, uploader_id := 9, status := "review", locked_by := some 5,
      locked_at := some 0, questions_count := 1, created_at := 0, completed_at := none },
    { batch_id := 2, uploader_id := 9, status := "draft", locked_by := none,
      locked_at := none, questions_count := 1, created_at := 100, completed_at := none }],
  questions := [
    { question_id := 10, uploader_id := some 9, created_at := 0, is_active := false,
      needs_review := true, moderation_score := none, moderation_comments := "",
      moderated_by_ai := false },
    { question_id := 20, uploader_id := some 9, created_at := 100, is_active := false,
      needs_review := true, moderation_score := none, moderation_comments := "",
      moderated_by_ai := false }],
  users := [
    { user_id := 5, username := some "alice", first_name := some "Alice",
      upload_count := 0, approved_count := 0, flagged_count := 0, rejected_count := 0,
      average_moderation_score := none }] }

/-- A store whose only batch carries a lock-holder but no lock
timestamp. -/
def storeB : Store := {
  batches := [
    { batch_id := 3, uploader_id := 9, status := "review", locked_by := some 5,
      locked_at := none, questions_count := 0, created_at := 0, completed_at := none }],
  questions := [], users := [] }

/-- A store whose only batch is under review with a lock acquired at
time 0. -/
def storeC : Store := {
  batches := [
    { batch_id := 4, uploader_id := 9, status := "review", locked_by := some 5,
      locked_at := some 0, questions_count := 0, created_at := 0, completed_at := none }],
  questions := [], users := [] }

/-- A store with one active published question by uploader 7, whose
contributor counters are all zero. -/
def storeD : Store := {
  batches := [],
  questions := [
    { question_id := 1, uploader_id := some 7, created_at := 0, is_active := true,
      needs_review := false, moderation_score := none, moderation_comments := "",
      moderated_by_ai := false }],
  users := [
    { user_id := 7, username := some "bob", first_name := none, upload_count := 0,
      approved_count := 0, flagged_count := 0, rejected_count := 0,
      average_moderation_score := none }] }

/-- A candidate that the specification's validation rule accepts (its
answer text-matches option A) but whose question text is shorter than 10
characters and whose answer is not a bare letter. -/
def shortTextMatchCand : Candidate :=
  { question_text := some "Q?",
    options := some [("A", "Paris"), ("B", "London"), ("C", "Berlin"), ("D", "Rome")],
    correct_answer := some "paris", explanation := none, ai_confidence := none }

/-- A five-option moderation input whose question ends in a question
mark. -/
def fiveOptionInput : ModInput :=
  { question := some "Which organ pumps blood?", question_text := none,
    options := some ["Heart", "Liver", "Lung", "Kidney", "Spleen"] }

/-! ## Theorems -/

/-- C2, counterexample: in `storeA`, batch 1 was created at time 0 with
a single question, and batch 2 — a distinct batch of the same uploader —
was created at time 100 together with its own question.  Approving batch
1 activates both question rows (the success message even reports 2
activations against batch 1's `questions_count` of 1), so a question row
belonging to the later batch is not left unchanged. -/
theorem approve_batch_touches_sibling_batch :
    (approve_batch storeA 200 1 5).2 =
      ⟨true, "Batch approved. 2 questions activated."⟩ ∧
    ((approve_batch storeA 200 1 5).1.questions.map fun q => q.is_active) =
      [true, true] ∧
    (storeA.batches.map fun b => (b.batch_id, b.created_at, b.questions_count)) =
      [(1, 0, 1), (2, 100, 1)] ∧
    (storeA.questions.map fun q => q.created_at) = [0, 100] := by
  decide

/-- C3, counterexample: `shortTextMatchCand` satisfies the
specification's validation rule (non-empty question, four non-empty
options, answer resolvable by case-insensitive text match), yet
`_validate_questions` drops it. -/
theorem validation_drops_spec_accepted_candidate :
    specClaimValid shortTextMatchCand = true ∧
    validate_questions [shortTextMatchCand] = [] := by
  decide

/-- C4, counterexample: three approve commits with scores 74, 75, 75
leave the stored rolling average at 74, while the rounded arithmetic
mean of the three scores is 75. -/
theorem rolling_average_drifts_from_mean :
    (foldAccepts (zeroStatsUser 1) [74, 75, 75]).approved_count = 3 ∧
    (foldAccepts (zeroStatsUser 1) [74, 75, 75]).average_moderation_score = some 74 ∧
    pyRound (74 + 75 + 75) 3 = 75 := by
  decide

/-- C5: evaluating `moderate_question_after_upload` at the failing
input.  The scorer's `accept` verdict (score 82) is recorded on the
question (`needs_review = false`, still active) but the uploader's
`approved_count` stays 0, because `update_contributor_stats` only
matches the past-tense actions `approved` / `flagged` / `rejected`;
likewise a `reject` verdict deactivates the question but leaves
`rejected_count` at 0. -/
theorem moderation_action_vocabulary_mismatch :
    ((moderate_question_after_upload storeD 1
        ⟨some 82, some "ok", some "accept"⟩).users.map fun u => u.approved_count) =
      [0] ∧
    ((moderate_question_after_upload storeD 1
        ⟨some 82, some "ok", some "accept"⟩).questions.map fun q =>
          (q.is_active, q.needs_review, q.moderation_score)) =
      [(true, false, some 82)] ∧
    ((moderate_question_after_upload storeD 1
        ⟨some 40, some "bad", some "reject"⟩).users.map fun u => u.rejected_count) =
      [0] ∧
    ((moderate_question_after_upload storeD 1
        ⟨some 40, some "bad", some "reject"⟩).questions.map fun q => q.is_active) =
      [false] := by
  decide

/-- C6, counterexample: a question ending in `?` with five options gets
score 75 and action `accept` from the heuristic fallback, where the
claim's `exactly four options` reading would give score 50 and action
`flag`. -/
theorem heuristic_accepts_five_option_question :
    heuristicModeration fiveOptionInput =
      ⟨75, "Heuristic moderation applied - no AI available.", "accept"⟩ ∧
    (fiveOptionInput.options.getD []).length = 5 := by
  decide

/-- C8, counterexample: in `storeC` the only batch is under review with
a lock acquired at time 0, so at `now = 900` its lock age equals the
15-minute timeout exactly; the sweep cleans nothing and reports 0
because the code compares strictly (`locked_at < now - timeout`). -/
theorem sweep_skips_lock_aged_exactly_timeout :
    cleanup_expired_locks storeC 900 = (storeC, 0) ∧
    (storeC.batches.map fun b => (b.status, b.locked_at)) =
      [("review", some (0 : Int))] ∧
    lockTimeoutSeconds = 900 := by
  decide

/-- C1: if batch `bid` is locked by admin `x` (a genuine Telegram id,
hence non-zero), less than the 15-minute timeout has elapsed since the
lock was acquired, and the users table gives `x` a non-empty username
`nm`, then a lock attempt by a different admin `y` fails, leaves the
store unchanged, and the failure message names `x` through `nm`. -/
theorem lock_conflict_fails_naming_holder
    (st : Store) (now t : Int) (bid : Nat) (x y : Int) (b : UploadBatch)
    (u : UserRow) (nm : String)
    (hb : findBatch st.batches bid = some b)
    (hlb : b.locked_by = some x) (hx0 : x ≠ 0) (hxy : x ≠ y)
    (hla : b.locked_at = some t) (hfresh : now - t < lockTimeoutSeconds)
    (hu : findUser st.users x = some u)
    (hnm : u.username = some nm) (hnm0 : nm ≠ "") :
    lock_batch_for_review st now bid y =
      (st, ⟨false, "⚠️ This batch is currently being reviewed by @" ++ nm⟩) := by
  simp only [lock_batch_for_review, hb, hlb, hla, intTruthy, lockerName,
    Option.getD_some, hu, pyOrRenderStr, hnm]
  rw [if_pos, if_neg hnm0]
  simp only [Bool.and_eq_true, bne_iff_ne, ne_eq, Option.some.injEq, decide_eq_true_eq]
  exact ⟨⟨hx0, hxy⟩, hfresh⟩

/-- C1 witness: in `storeA`, admin 7 cannot take batch 1 from admin 5
(whose username is `alice`) 100 seconds after the lock was acquired. -/
theorem lock_conflict_fails_naming_holder_witness :
    lock_batch_for_review storeA 100 1 7 =
      (storeA, ⟨false, "⚠️ This batch is currently being reviewed by @alice"⟩) := by
  exact lock_conflict_fails_naming_holder storeA 100 0 1 5 7
    { batch_id := 1, uploader_id := 9, status := "review", locked_by := some 5,
      locked_at := some 0, questions_count := 1, created_at := 0, completed_at := none }
    { user_id := 5, username := some "alice", first_name := some "Alice",
      upload_count := 0, approved_count := 0, flagged_count := 0, rejected_count := 0,
      average_moderation_score := none }
    "alice" (by decide) (by decide) (by decide) (by decide) (by decide)
    (by decide) (by decide) (by decide) (by decide)

/-- C10: a batch with a non-null lock-holder but a null lock timestamp
does not trigger the conflict branch: any other admin immediately
acquires the lock, overwriting holder and timestamp and forcing `review`
status. -/
theorem lock_without_timestamp_is_overwritten
    (st : Store) (now : Int) (bid : Nat) (x y : Int) (b : UploadBatch)
    (hb : findBatch st.batches bid = some b)
    (hlb : b.locked_by = some x) (hx0 : x ≠ 0) (hxy : x ≠ y)
    (hla : b.locked_at = none) :
    lock_batch_for_review st now bid y =
      ({st with batches := st.batches.map fun c =>
          if c.batch_id == bid then
            {c with locked_by := some y, locked_at := some now, status := "review"}
          else c},
       ⟨true, "Batch locked for review"⟩) := by
  simp [lock_batch_for_review, hb, hla]

/-- C10 witness: in `storeB` (batch 3 held by admin 5 with no
timestamp), admin 7 locks batch 3 at time 50 and becomes the holder. -/
theorem lock_without_timestamp_is_overwritten_witness :
    lock_batch_for_review storeB 50 3 7 =
      ({storeB with batches := storeB.batches.map fun c =>
          if c.batch_id == 3 then
            {c with locked_by := some 7, locked_at := some 50, status := "review"}
          else c},
       ⟨true, "Batch locked for review"⟩) := by
  exact lock_without_timestamp_is_overwritten storeB 50 3 5 7
    { batch_id := 3, uploader_id := 9, status := "review", locked_by := some 5,
      locked_at := none, questions_count := 0, created_at := 0, completed_at := none }
    (by decide) (by decide) (by decide) (by decide) (by decide)

/-- Accessing any of the first four options succeeds when the options
list is empty (the four-`None` default applies) or has at least four
entries; otherwise the real handler raises `IndexError`. -/
theorem optionAt_isSome_of_len (opts : List String) (i : Nat) (hi : i < 4)
    (hlen : opts = [] ∨ 4 ≤ opts.length) :
    ∃ s, optionAt opts i = some s := by
  rcases hlen with he | hg
  · subst he
    interval_cases i <;> exact ⟨"", rfl⟩
  · have hil : i < opts.length := lt_of_lt_of_le hi hg
    have hne : opts.isEmpty = false := by
      cases opts
      · simp at hg
      · rfl
    refine ⟨opts[i], ?_⟩
    unfold optionAt
    rw [hne]
    simp only [Bool.false_eq_true, if_false]
    exact List.getElem?_eq_getElem hil

/-- C9: when the upload's correct answer is absent, empty, or neither a
letter `A`–`E` (after strip and upper-case) nor a case-insensitive text
match of any option, `_map_correct_option` returns `"A"`; consequently,
for any non-`reject` moderation action and any candidate whose options
list is empty or has at least four entries (so the option accesses do
not raise `IndexError`), the commit path appends a question row whose
`correct_answer` is `"A"` instead of dropping the candidate. -/
theorem unresolved_correct_answer_published_as_A
    (q : UploadCand) (action : String) (rows : List AdminQuestion)
    (mscore : Option Int) (mcomments : Option String)
    (hc : q.correct_answer = none ∨ q.correct_answer = some "" ∨
          (∃ s, q.correct_answer = some s ∧ s ≠ "" ∧
            (["A", "B", "C", "D", "E"] : List String).contains
              (pyUpper (pyStrip s)) = false ∧
            ∀ o ∈ q.options, pyLower (pyStrip o) ≠ pyLower (pyStrip s)))
    (hact : action ≠ "reject")
    (hlen : q.options = [] ∨ 4 ≤ q.options.length) :
    map_correct_option q.correct_answer q.options = "A" ∧
    ∃ row : AdminQuestion,
      builtQuestion q (action == "flag") mscore mcomments = some row ∧
      insertQuestionWithModeration rows q action mscore mcomments = rows ++ [row] ∧
      row.correct_answer = "A" := by
  have hmap : map_correct_option q.correct_answer q.options = "A" := by
    rcases hc with h | h | ⟨s, hs, hne, hnl, hnm⟩
    · simp [map_correct_option, h]
    · simp [map_correct_option, h]
    · rw [hs]
      simp only [map_correct_option]
      rw [if_neg hne, if_neg (by simpa using hnl)]
      have hidx : (q.options.map (fun o => pyLower (pyStrip o))).findIdx?
          (fun o => o == pyLower (pyStrip s)) = none := by
        rw [List.findIdx?_eq_none_iff]
        intro o ho
        rcases List.mem_map.mp ho with ⟨a, ha, rfl⟩
        simpa using hnm a ha
      rw [hidx]
  obtain ⟨a0, h0⟩ := optionAt_isSome_of_len q.options 0 (by norm_num) hlen
  obtain ⟨a1, h1⟩ := optionAt_isSome_of_len q.options 1 (by norm_num) hlen
  obtain ⟨a2, h2⟩ := optionAt_isSome_of_len q.options 2 (by norm_num) hlen
  obtain ⟨a3, h3⟩ := optionAt_isSome_of_len q.options 3 (by norm_num) hlen
  have hb : builtQuestion q (action == "flag") mscore mcomments = some
      { question_text := q.question.getD "",
        option_a := a0, option_b := a1, option_c := a2, option_d := a3,
        correct_answer := map_correct_option q.correct_answer q.options,
        explanation := q.explanation,
        is_active := !(action == "flag"),
        moderation_score := mscore,
        moderation_comments := mcomments,
        moderated_by_ai := true,
        needs_review := (action == "flag") } := by
    simp only [builtQuestion, h0, h1, h2, h3]
  refine ⟨hmap, _, hb, ?_, ?_⟩
  · have hr : (action == "reject") = false := beq_eq_false_iff_ne.mpr hact
    simp only [insertQuestionWithModeration, hr, Bool.false_eq_true, if_false, hb]
  · exact hmap

/-- C9 witness: an upload with four options whose answer `nonsense`
matches no option and is no letter gets committed (action `accept`) with
correct option `A`. -/
theorem unresolved_correct_answer_published_as_A_witness :
    map_correct_option (some "nonsense") ["Paris", "London", "Berlin", "Rome"] = "A" ∧
    ∃ row : AdminQuestion,
      builtQuestion
        { question := some "What is X?", options := ["Paris", "London", "Berlin", "Rome"],
          correct_answer := some "nonsense", explanation := none }
        false (some 82) none = some row ∧
      insertQuestionWithModeration []
        { question := some "What is X?", options := ["Paris", "London", "Berlin", "Rome"],
          correct_answer := some "nonsense", explanation := none }
        "accept" (some 82) none = [] ++ [row] ∧
      row.correct_answer = "A" := by
  have h := unresolved_correct_answer_published_as_A
    { question := some "What is X?", options := ["Paris", "London", "Berlin", "Rome"],
      correct_answer := some "nonsense", explanation := none }
    "accept" [] (some 82) none
    (Or.inr (Or.inr ⟨"nonsense", rfl, by decide, by decide, by decide⟩))
    (by decide) (Or.inr (by decide))
  exact ⟨h.1, h.2⟩

/-- C7: every batch-store operation preserves the invariant that a held
lock implies `review` status, from any store satisfying it. -/
theorem batch_lock_invariant_preserved
    (st : Store) (now : Int) (bid newId : Nat) (adminId uploaderId qcount : Int)
    (hinv : LockInv st) :
    LockInv (create_upload_batch st now uploaderId qcount newId).1 ∧
    LockInv (lock_batch_for_review st now bid adminId).1 ∧
    LockInv (unlock_batch st bid adminId).1 ∧
    LockInv (approve_batch st now bid adminId).1 ∧
    LockInv (reject_batch st now bid adminId).1 ∧
    LockInv (cleanup_expired_locks st now).1 := by
  have hmap : ∀ (f : UploadBatch → UploadBatch),
      (∀ b, (b.locked_by ≠ none → b.status = "review") →
        ((f b).locked_by ≠ none → (f b).status = "review")) →
      LockInv {st with batches := st.batches.map f} := by
    intro f hf b hb
    rcases List.mem_map.mp hb with ⟨a, ha, rfl⟩
    exact hf a (hinv a ha)
  refine ⟨?_, ?_, ?_, ?_, ?_, ?_⟩
  · intro b hb
    rcases List.mem_append.mp hb with h | h
    · exact hinv b h
    · intro hl
      simp only [List.mem_singleton] at h
      subst h
      simp at hl
  · unfold lock_batch_for_review
    cases hfb : findBatch st.batches bid with
    | none => exact hinv
    | some b =>
      by_cases hc : ((intTruthy b.locked_by && b.locked_by != some adminId) &&
          (match b.locked_at with
            | some t => decide (now - t < lockTimeoutSeconds)
            | none => false)) = true
      · simp only [hc, if_true]
        exact hinv
      · simp only [hc, if_false, Bool.false_eq_true]
        apply hmap
        intro a hinva
        by_cases hid : (a.batch_id == bid) = true <;> simp [hid]
        exact hinva
  · unfold unlock_batch
    cases hfb : findBatch st.batches bid with
    | none => exact hinv
    | some b =>
      by_cases hl : (b.locked_by == some adminId) = true
      · simp only [hl, if_true]
        apply hmap
        intro a hinva
        by_cases hid : (a.batch_id == bid) = true <;> simp [hid]
        exact hinva
      · simp only [hl, Bool.false_eq_true, if_false]
        exact hinv
  · unfold approve_batch
    cases hfb : findBatch st.batches bid with
    | none => exact hinv
    | some b =>
      by_cases hl : (b.locked_by != some adminId) = true
      · simp only [hl, if_true]
        exact hinv
      · simp only [hl, Bool.false_eq_true, if_false]
        apply hmap
        intro a hinva
        by_cases hid : (a.batch_id == bid) = true <;> simp [hid]
        exact hinva
  · unfold reject_batch
    cases hfb : findBatch st.batches bid with
    | none => exact hinv
    | some b =>
      by_cases hl : (b.locked_by != some adminId) = true
      · simp only [hl, if_true]
        exact hinv
      · simp only [hl, Bool.false_eq_true, if_false]
        apply hmap
        intro a hinva
        by_cases hid : (a.batch_id == bid) = true <;> simp [hid]
        exact hinva
  · apply hmap
    intro a hinva
    by_cases he : expiredForCleanup now a = true <;> simp [he, clearExpiredLock]
    exact hinva

/-- C7 witness: the invariant holds in `storeA` and is preserved by all
six operations at concrete arguments. -/
theorem batch_lock_invariant_preserved_witness :
    LockInv (create_upload_batch storeA 300 9 0 7).1 ∧
    LockInv (lock_batch_for_review storeA 300 1 5).1 ∧
    LockInv (unlock_batch storeA 1 5).1 ∧
    LockInv (approve_batch storeA 300 1 5).1 ∧
    LockInv (reject_batch storeA 300 1 5).1 ∧
    LockInv (cleanup_expired_locks storeA 300).1 := by
  exact batch_lock_invariant_preserved storeA 300 1 7 5 9 0
    (by intro b hb h; fin_cases hb <;> simp_all [LockInv, storeA])

/-- Filtering a four-element list keeps all four elements exactly when
the predicate holds of each. -/
theorem length_filter_four_iff {α : Type} (p : α → Bool) (a b c d : α) :
    (List.filter p [a, b, c, d]).length = 4 ↔
      (p a = true ∧ p b = true ∧ p c = true ∧ p d = true) := by
  cases ha : p a <;> cases hb : p b <;> cases hc : p c <;> cases hd : p d <;>
    simp [List.filter, ha, hb, hc, hd]

/-- C3, amended: a candidate is accepted into the validated output list
if and only if it has all three required keys, a stripped question text
of at least 10 characters, an options dict of exactly four entries whose
`A`–`D` values are all non-empty after stripping, and a correct answer
that upper-cases to a bare letter `A`–`D`; candidates failing this are
dropped from the output. -/
theorem validation_accept_characterization (c : Candidate) (i : Nat)
    (rest : List Candidate) :
    (validationAccepts c = true ↔ AmendedValid c) ∧
    validateQuestionsFrom i (c :: rest) =
      (if validationAccepts c then cleanCandidate i c :: validateQuestionsFrom (i + 1) rest
       else validateQuestionsFrom (i + 1) rest) := by
  refine ⟨?_, rfl⟩
  unfold validationAccepts AmendedValid
  simp only [Bool.and_eq_true, length_filter_four_iff, beq_iff_eq, bne_iff_ne, ne_eq,
    decide_eq_true_eq, List.elem_iff, List.forall_mem_cons, List.forall_mem_nil, and_true]
  tauto

/-- Stepping the admin-handler contributor update once with an accepted
score advances the bucket `(avg, n)` exactly as the specification's
rolling-average recurrence does. -/
theorem contribUpdate_accept_step (u : UserRow) (s : Int) (n : Nat) (avg : Int)
    (hc : u.approved_count = (n : Int))
    (ha : u.average_moderation_score = if n = 0 then none else some avg) :
    (contribUpdate u "accept" (some s)).approved_count = ((n : Int) + 1) ∧
    (contribUpdate u "accept" (some s)).average_moderation_score =
      some (pyRound (avg * n + s) (n + 1)) := by
  have hrej : (("accept" : String) == "reject") = false := by decide
  have hflag : (("accept" : String) == "flag") = false := by decide
  unfold contribUpdate
  rw [hrej, hflag]
  simp only [Bool.false_eq_true, if_false]
  refine ⟨by simp [hc], ?_⟩
  have hT : intTruthy (some ((n : Int) + 1)) = true := by
    simp only [intTruthy, bne_iff_ne, ne_eq, decide_eq_true_eq]
    omega
  have hP : (0 : Int) < (n : Int) + 1 := by omega
  rcases Nat.eq_zero_or_pos n with hn | hn
  · subst hn
    rw [if_pos rfl] at ha
    simp [ha, hc, hT, hP]
  · have hn0 : ¬n = 0 := Nat.pos_iff_ne_zero.mp hn
    rw [if_neg hn0] at ha
    simp [ha, hc, hT, hP]

/-- Iterating the contributor update over a score list tracks the
rolling-average recurrence from any consistent bucket state. -/
theorem foldAccepts_tracks_recurrence (scores : List Int) :
    ∀ (n : Nat) (avg : Int) (u : UserRow),
    u.approved_count = (n : Int) →
    u.average_moderation_score = (if n = 0 then none else some avg) →
    (foldAccepts u scores).approved_count = ((n : Int) + scores.length) ∧
    (foldAccepts u scores).average_moderation_score =
      rollingFormulaFold.go avg n scores := by
  induction scores with
  | nil =>
    intro n avg u hc ha
    refine ⟨by simpa [foldAccepts] using hc, ?_⟩
    simpa [foldAccepts, rollingFormulaFold.go] using ha
  | cons s rest ih =>
    intro n avg u hc ha
    have hstep := contribUpdate_accept_step u s n avg hc ha
    have hrec := ih (n + 1) (pyRound (avg * n + s) (n + 1))
      (contribUpdate u "accept" (some s))
      (by rw [hstep.1]; push_cast; ring)
      (by rw [hstep.2]; simp)
    have h1 : foldAccepts u (s :: rest) = foldAccepts (contribUpdate u "accept" (some s)) rest := by
      simp [foldAccepts]
    have h2 : rollingFormulaFold.go avg n (s :: rest) =
        rollingFormulaFold.go (pyRound (avg * n + s) (n + 1)) (n + 1) rest := rfl
    rw [h1, h2]
    refine ⟨?_, hrec.2⟩
    rw [hrec.1]
    simp only [List.length_cons]
    push_cast
    ring

/-- C4, amended: after `N` approve commits with scores `s1..sN` starting
from zero counters, `approved_count = N` and the stored rolling average
equals the iterated recurrence `new_avg = round((prev_avg * prev_n +
new_value) / (prev_n + 1))` — which can differ from the rounded
arithmetic mean of the scores. -/
theorem approve_fold_matches_rolling_formula (uid : Int) (scores : List Int) :
    (foldAccepts (zeroStatsUser uid) scores).approved_count = (scores.length : Int) ∧
    (foldAccepts (zeroStatsUser uid) scores).average_moderation_score =
      rollingFormulaFold scores := by
  have h := foldAccepts_tracks_recurrence scores 0 0 (zeroStatsUser uid) rfl rfl
  rw [rollingFormulaFold]
  constructor
  · rw [h.1]; push_cast; ring
  · exact h.2

/-- C6, amended: the heuristic fallback returns score 75 and action
`accept` if and only if the stripped question text ends with `?` and the
candidate has at least 4 options; every other candidate gets score 50
and action `flag` — and these are the only two outcomes. -/
theorem heuristic_moderation_characterization (q : ModInput) :
    (heuristicModeration q =
        ⟨75, "Heuristic moderation applied - no AI available.", "accept"⟩ ∨
      heuristicModeration q =
        ⟨50, "Heuristic moderation applied - no AI available.", "flag"⟩) ∧
    (heuristicModeration q =
        ⟨75, "Heuristic moderation applied - no AI available.", "accept"⟩ ↔
      (pyEndsWithQm (pyStrip (pyOrStr2 q.question q.question_text)) = true ∧
        4 ≤ (q.options.getD []).length)) := by
  simp only [heuristicModeration]
  by_cases h : (pyEndsWithQm (pyStrip (pyOrStr2 q.question q.question_text)) &&
      decide (4 ≤ (q.options.getD []).length)) = true
  · have h' := h
    rw [Bool.and_eq_true] at h'
    obtain ⟨h1, h2⟩ := h'
    rw [if_pos h, if_pos (by norm_num : (70 : Int) ≤ 75)]
    exact ⟨Or.inl rfl, iff_of_true rfl ⟨h1, of_decide_eq_true h2⟩⟩
  · rw [if_neg h, if_neg (by norm_num : ¬((70 : Int) ≤ 50))]
    refine ⟨Or.inr rfl, iff_of_false (by simp) ?_⟩
    rintro ⟨h1, h2⟩
    exact h (by rw [h1, decide_eq_true h2]; rfl)

/-- C8, amended: the sweep cleans exactly the reviewing batches whose
lock age strictly exceeds the 15-minute timeout (an age of exactly the
timeout, or a missing timestamp, is not cleaned), clearing their lock
fields and reverting them to `draft`; it returns the count cleaned, and
an immediately repeated sweep at the same instant changes nothing and
reports 0. -/
theorem cleanup_sweep_characterization (st : Store) (now : Int) :
    (∀ b : UploadBatch, expiredForCleanup now b = true ↔ SpecSweepExpired now b) ∧
    (cleanup_expired_locks st now).2 = st.batches.countP (expiredForCleanup now) ∧
    (cleanup_expired_locks st now).1.batches =
      st.batches.map (fun b => if expiredForCleanup now b then clearExpiredLock b else b) ∧
    cleanup_expired_locks (cleanup_expired_locks st now).1 now =
      ((cleanup_expired_locks st now).1, 0) := by
  refine ⟨?_, ?_, rfl, ?_⟩
  · intro b
    unfold expiredForCleanup SpecSweepExpired
    cases hla : b.locked_at with
    | none => simp
    | some t =>
      simp only [Bool.and_eq_true, beq_iff_eq, decide_eq_true_eq, Option.some.injEq]
      constructor
      · rintro ⟨h1, h2⟩
        exact ⟨h2, t, rfl, by omega⟩
      · rintro ⟨h1, t2, ht2, h2⟩
        subst ht2
        exact ⟨by omega, h1⟩
  · simp [cleanup_expired_locks, List.countP_eq_length_filter]
  · have hall : ∀ b ∈ (cleanup_expired_locks st now).1.batches,
        expiredForCleanup now b = false := by
      intro b hb
      rcases List.mem_map.mp hb with ⟨a, ha, rfl⟩
      by_cases he : expiredForCleanup now a = true
      · rw [if_pos he]
        simp [clearExpiredLock, expiredForCleanup]
      · rw [Bool.not_eq_true] at he
        rw [if_neg (by simp [he])]
        exact he
    have hmapeq : (cleanup_expired_locks st now).1.batches.map
        (fun b => if expiredForCleanup now b then clearExpiredLock b else b) =
        (cleanup_expired_locks st now).1.batches := by
      rw [List.map_congr_left (g := id) (fun a ha => by simp [hall a ha]), List.map_id]
    have hfileq : (cleanup_expired_locks st now).1.batches.filter
        (expiredForCleanup now) = [] := by
      rw [List.filter_eq_nil_iff]
      intro a ha
      simp [hall a ha]
    have hstep : cleanup_expired_locks (cleanup_expired_locks st now).1 now =
        ({(cleanup_expired_locks st now).1 with
            batches := (cleanup_expired_locks st now).1.batches.map
              (fun b => if expiredForCleanup now b then clearExpiredLock b else b)},
          ((cleanup_expired_locks st now).1.batches.filter
            (expiredForCleanup now)).length) := rfl
    rw [hstep, hmapeq, hfileq]
    rfl

/-- C2, amended: `approve_batch` and `reject_batch` succeed only for the
current lock-holder; on success they set the terminal status, clear both
lock fields, and apply the decision uniformly to exactly the question
rows whose uploader matches the batch uploader and whose creation time
is at or after the batch creation time — a set that can include
questions of the uploader's other, later batches. -/
theorem approve_reject_lockholder_frame
    (st : Store) (now : Int) (bid : Nat) (adminId : Int) (b : UploadBatch)
    (hb : findBatch st.batches bid = some b) :
    (b.locked_by ≠ some adminId →
      approve_batch st now bid adminId =
        (st, ⟨false, "You don\x27t have permission to approve this batch"⟩) ∧
      reject_batch st now bid adminId =
        (st, ⟨false, "You don\x27t have permission to reject this batch"⟩)) ∧
    (b.locked_by = some adminId →
      (approve_batch st now bid adminId).2.success = true ∧
      (approve_batch st now bid adminId).1.batches =
        st.batches.map (fun c => if c.batch_id == bid then
          {c with status := "approved", completed_at := some now,
                  locked_by := none, locked_at := none} else c) ∧
      (approve_batch st now bid adminId).1.questions =
        st.questions.map (fun q =>
          if q.uploader_id == some b.uploader_id && b.created_at ≤ q.created_at then
            {q with is_active := true, needs_review := false}
          else q) ∧
      (reject_batch st now bid adminId).2.success = true ∧
      (reject_batch st now bid adminId).1.batches =
        st.batches.map (fun c => if c.batch_id == bid then
          {c with status := "rejected", completed_at := some now,
                  locked_by := none, locked_at := none} else c) ∧
      (reject_batch st now bid adminId).1.questions =
        st.questions.map (fun q =>
          if q.uploader_id == some b.uploader_id && b.created_at ≤ q.created_at then
            {q with is_active := false, needs_review := false}
          else q)) := by
  constructor
  · intro hne
    have h : (b.locked_by != some adminId) = true := bne_iff_ne.mpr hne
    constructor
    · simp [approve_batch, hb, h]
    · simp [reject_batch, hb, h]
  · intro heq
    have h : (b.locked_by != some adminId) = false := by
      simp [bne, heq]
    refine ⟨?_, ?_, ?_, ?_, ?_, ?_⟩ <;>
      simp [approve_batch, reject_batch, hb, h, batchQuestionMatch]

/-- C2 witness: in `storeA`, admin 7 (not the holder) cannot approve or
reject batch 1, while holder 5 can, with the batch and question updates
as characterized. -/
theorem approve_reject_lockholder_frame_witness :
    (approve_batch storeA 200 1 7 =
        (storeA, ⟨false, "You don\x27t have permission to approve this batch"⟩)) ∧
    ((approve_batch storeA 200 1 5).2.success = true) ∧
    ((approve_batch storeA 200 1 5).1.questions =
      storeA.questions.map (fun q =>
        if q.uploader_id == some (9 : Int) && (0 : Int) ≤ q.created_at then
          {q with is_active := true, needs_review := false}
        else q)) := by
  have h7 := approve_reject_lockholder_frame storeA 200 1 7
    { batch_id := 1, uploader_id := 9, status := "review", locked_by := some 5,
      locked_at := some 0, questions_count := 1, created_at := 0, completed_at := none }
    (by decide)
  have h5 := approve_reject_lockholder_frame storeA 200 1 5
    { batch_id := 1, uploader_id := 9, status := "review", locked_by := some 5,
      locked_at := some 0, questions_count := 1, created_at := 0, completed_at := none }
    (by decide)
  refine ⟨(h7.1 (by decide)).1, (h5.2 rfl).1, ?_⟩
  exact (h5.2 rfl).2.2.1

end BotCamp
